import Mathlib

/-!
Shallow embedding of the MGNREGA district-tracker acquisition core (the
`MGNREGAService` class of the server source): the district registry, the
name matcher, the performance scorer, the synthetic data generator, the
processing of upstream API rows, the TTL cache over SQLite string
timestamps, the `fetchDistrictData` orchestration and `getDistrictHistory`.
JavaScript numbers are modelled as exact rationals, `Math.sin` as an
abstract parameter `sinFn` (theorems quantify over it), wall-clock readings
as explicit parameters, and fallible persistence or network I/O as explicit
outcome fields of an environment record.
-/

/-- Models JavaScript `parseInt` applied to an already-numeric upstream
value: truncation toward zero. -/
def jsTrunc (q : ℚ) : ℤ := if 0 ≤ q then ⌊q⌋ else ⌈q⌉

/-- Models `parseInt(v) || 0`: a missing or unparseable field yields 0.
Upstream numeric fields are modelled as `Option ℚ`. -/
def jsParseInt (v : Option ℚ) : ℚ := match v with
  | none => 0
  | some q => (jsTrunc q : ℚ)

/-- Models `parseFloat(v) || 0`. -/
def jsParseFloat (v : Option ℚ) : ℚ := v.getD 0

/-- Models `Math.round` (round half toward positive infinity). -/
def jsRound (q : ℚ) : ℤ := ⌊q + 1 / 2⌋

/-- Models `Math.round(q * 100) / 100`, the two-decimal rounding used for
the per-household averages. -/
def jsRound2 (q : ℚ) : ℚ := (jsRound (q * 100) : ℚ) / 100

/-- Models `s.charCodeAt(i)` for the in-range indices the service uses
(district codes of length 5 and `YYYY-MM` periods of length 7). -/
def charCodeAt (s : String) (i : ℕ) : ℕ := (s.data.getD i (Char.ofNat 0)).toNat

/-- Models the JavaScript `\s` whitespace class for the ASCII district
names appearing in the registry. -/
def jsWhitespace (c : Char) : Bool := c.isWhitespace

/-- Models `String.prototype.toLowerCase` for the ASCII labels involved,
defined directly as a per-character map over the character list. -/
def lowerStr (s : String) : String := String.mk (s.data.map Char.toLower)

/-- Models `name.replace(/\s+/g, '')`. -/
def removeWs (s : String) : String := String.mk (s.data.filter (fun c => !jsWhitespace c))

/-- Models `name.replace(/\s+/g, '.')`: each maximal whitespace run becomes
a single dot.  The flag records whether we are inside a run. -/
def wsToDotAux : Bool → List Char → List Char
  | _, [] => []
  | inRun, c :: rest =>
    if jsWhitespace c then
      if inRun then wsToDotAux true rest else '.' :: wsToDotAux true rest
    else c :: wsToDotAux false rest

/-- Models `name.replace(/\s+/g, '.')`. -/
def wsToDot (s : String) : String := String.mk (wsToDotAux false s.data)

/-- Tests whether `needle` is an exact leading segment of `hay`. -/
def headMatches : List Char → List Char → Bool
  | [], _ => true
  | _ :: _, [] => false
  | a :: as, b :: bs => a = b && headMatches as bs

/-- Substring search over character lists, in the sense of JavaScript
`String.prototype.includes`. -/
def containsSub : List Char → List Char → Bool
  | [], needle => needle.isEmpty
  | c :: rest, needle => headMatches needle (c :: rest) || containsSub rest needle

/-- Models `hay.includes(needle)`. -/
def jsIncludes (hay needle : String) : Bool := containsSub hay.data needle.data

/-- Models `a || b` on JavaScript strings, where the empty string is falsy
(missing values are conflated with the empty string). -/
def jsOrStr (a b : String) : String := if a = "" then b else a

/-- One row of the hard-coded Andhra Pradesh district registry. -/
structure District where
  code : String
  name : String
  lat : ℚ
  lng : ℚ
  deriving DecidableEq, Repr

/-- The `andhraPradeshDistricts` seed list of the server source. -/
def andhraPradeshDistricts : List District :=
  [⟨"AP001", "Anantapur", 14.6819, 77.6006⟩,
   ⟨"AP002", "Chittoor", 13.2156, 79.1004⟩,
   ⟨"AP003", "East Godavari", 16.9454, 82.2382⟩,
   ⟨"AP004", "Guntur", 16.3067, 80.4365⟩,
   ⟨"AP005", "Krishna", 16.1667, 81.1333⟩,
   ⟨"AP006", "Kurnool", 15.8300, 78.0500⟩,
   ⟨"AP007", "Nellore", 14.4415, 79.9864⟩,
   ⟨"AP008", "Prakasam", 15.5067, 79.3200⟩,
   ⟨"AP009", "Srikakulam", 18.2989, 83.8975⟩,
   ⟨"AP010", "Visakhapatnam", 17.6868, 83.2185⟩,
   ⟨"AP011", "Vizianagaram", 18.1167, 83.4167⟩,
   ⟨"AP012", "West Godavari", 16.9454, 81.2382⟩,
   ⟨"AP013", "YSR Kadapa", 14.4667, 78.8167⟩]

/-- The special-case alias names pushed for known API variations in
`processAPIData`, keyed by district code. -/
def extraAliases (code : String) : List String :=
  (if code = "AP013" then ["y.s.r", "ysr", "kadapa", "y s r"] else []) ++
  (if code = "AP004" then ["ntr", "guntur"] else []) ++
  (if code = "AP012" then ["west godavari", "westgodavari"] else []) ++
  (if code = "AP003" then ["east godavari", "eastgodavari"] else [])

/-- The candidate name list built inside the matching filter of
`processAPIData`: exact lowercase, whitespace removed, whitespace replaced
with dots, plus the curated aliases. -/
def possibleNames (d : District) : List String :=
  [lowerStr d.name, removeWs (lowerStr d.name), wsToDot (lowerStr d.name)] ++ extraAliases d.code

/-- Core of the name matcher: the lowercased upstream label matches the
target district when it contains some candidate as a substring. -/
def labelMatches (label : String) (d : District) : Bool :=
  (possibleNames d).any (fun cand => jsIncludes (lowerStr label) cand)

/-- One upstream API row (`response.data.records[i]`).  String-typed
columns are optional strings; numeric-typed columns are modelled as the
optional rational value a successful parse yields. -/
structure ApiRecord where
  district_name : Option String := none
  fin_year : Option String := none
  month : Option String := none
  Total_Exp : Option ℚ := none
  Total_Households_Worked : Option ℚ := none
  Persondays_of_Central_Liability_so_far : Option ℚ := none
  Average_days_of_employment_provided_per_Household : Option ℚ := none
  Average_Wage_rate_per_day_per_person : Option ℚ := none
  Women_Persondays : Option ℚ := none
  SC_persondays : Option ℚ := none
  ST_persondays : Option ℚ := none
  Number_of_Completed_Works : Option ℚ := none
  Number_of_Ongoing_Works : Option ℚ := none
  Total_Individuals_Worked : Option ℚ := none
  Total_No_of_JobCards_issued : Option ℚ := none
  Total_No_of_HHs_completed_100_Days_of_Wage_Employment : Option ℚ := none
  Differently_abled_persons_worked : Option ℚ := none
  percentage_payments_gererated_within_15_days : Option ℚ := none
  deriving DecidableEq, Repr

/-- The per-record filter predicate of `processAPIData`: look up the target
district by code, bail out on a missing target or a falsy (missing or
empty) upstream name, then run the substring matcher. -/
def matchesRecord (record : ApiRecord) (districtCode : String) : Bool :=
  match record.district_name, andhraPradeshDistricts.find? (fun d => decide (d.code = districtCode)) with
  | some nm, some d => if lowerStr nm = "" then false else labelMatches nm d
  | _, _ => false

/-- The complete normalized metrics record (`MetricsBundle`) assembled by
`processAPIData` and `generateMockData`. -/
structure Bundle where
  district_code : String
  district_name : String
  month_year : String
  total_households : ℚ
  total_person_days : ℚ
  total_amount_spent : ℚ
  avg_days_per_household : ℚ
  avg_amount_per_household : ℚ
  performance_score : ℚ
  data_source : String
  last_updated : String
  financial_year : String
  month : String
  average_wage_rate : ℚ
  women_persondays : ℚ
  sc_persondays : ℚ
  st_persondays : ℚ
  completed_works : ℚ
  ongoing_works : ℚ
  total_individuals_worked : ℚ
  total_job_cards : ℚ
  households_100_days : ℚ
  differently_abled_worked : ℚ
  payment_within_15_days : ℚ
  deriving DecidableEq, Repr

/-- The household-coverage bonus tier of `calculatePerformanceScore`. -/
def householdBonus (totalHouseholds : ℚ) : ℚ :=
  if 30000 < totalHouseholds then 20
  else if 20000 < totalHouseholds then 15
  else if 10000 < totalHouseholds then 10
  else if 5000 < totalHouseholds then 5
  else 0

/-- The person-days-efficiency bonus tier of `calculatePerformanceScore`. -/
def intensityBonus (avgDays : ℚ) : ℚ :=
  if 25 < avgDays then 20
  else if 20 < avgDays then 15
  else if 15 < avgDays then 10
  else if 10 < avgDays then 5
  else 0

/-- `calculatePerformanceScore`: base 60, plus the two tier bonuses, capped
at 100.  The source reads only `total_households` and `total_person_days`
from its argument object. -/
def calculatePerformanceScore (totalHouseholds totalPersonDays : ℚ) : ℚ :=
  let avgDays := if 0 < totalHouseholds then totalPersonDays / totalHouseholds else 0
  min (60 + householdBonus totalHouseholds + intensityBonus avgDays) 100

/-- `processAPIData(records, districtCode, monthYear)`: filter the rows
with the name matcher, fail with the no-data error when none match,
otherwise assemble the bundle from the first matching row.  `nowIso` stands
for `new Date().toISOString()` at assembly time. -/
def processAPIData (records : List ApiRecord) (districtCode monthYear nowIso : String) :
    Except String Bundle :=
  let districtRecords := records.filter (fun r => matchesRecord r districtCode)
  match districtRecords with
  | [] =>
    .error ("No data found for district " ++ districtCode ++ " (" ++
      (((andhraPradeshDistricts.find? (fun d => decide (d.code = districtCode))).map
        (fun d => d.name)).getD ("undefined")) ++ ")")
  | latestRecord :: _ =>
    let district := andhraPradeshDistricts.find? (fun d => decide (d.code = districtCode))
    let totalPersonDays := jsParseInt latestRecord.Persondays_of_Central_Liability_so_far
    let totalHouseholds := jsParseInt latestRecord.Total_Households_Worked
    let totalAmountSpent := jsParseFloat latestRecord.Total_Exp
    .ok
      { district_code := districtCode
        district_name :=
          jsOrStr ((district.map (fun d => d.name)).getD (""))
            (jsOrStr ((latestRecord.district_name).getD ("")) ("Unknown"))
        month_year := monthYear
        total_households := totalHouseholds
        total_person_days := totalPersonDays
        total_amount_spent := totalAmountSpent
        avg_days_per_household :=
          jsParseFloat latestRecord.Average_days_of_employment_provided_per_Household
        avg_amount_per_household :=
          if 0 < totalHouseholds then jsRound2 (totalAmountSpent / totalHouseholds) else 0
        performance_score := calculatePerformanceScore totalHouseholds totalPersonDays
        data_source := "data.gov.in"
        last_updated := nowIso
        financial_year := (latestRecord.fin_year).getD ("")
        month := (latestRecord.month).getD ("")
        average_wage_rate := jsParseFloat latestRecord.Average_Wage_rate_per_day_per_person
        women_persondays := jsParseInt latestRecord.Women_Persondays
        sc_persondays := jsParseInt latestRecord.SC_persondays
        st_persondays := jsParseInt latestRecord.ST_persondays
        completed_works := jsParseInt latestRecord.Number_of_Completed_Works
        ongoing_works := jsParseInt latestRecord.Number_of_Ongoing_Works
        total_individuals_worked := jsParseInt latestRecord.Total_Individuals_Worked
        total_job_cards := jsParseInt latestRecord.Total_No_of_JobCards_issued
        households_100_days :=
          jsParseInt latestRecord.Total_No_of_HHs_completed_100_Days_of_Wage_Employment
        differently_abled_worked := jsParseInt latestRecord.Differently_abled_persons_worked
        payment_within_15_days :=
          jsParseFloat latestRecord.percentage_payments_gererated_within_15_days }

/-- The deterministic seed of `generateMockData`:
`districtCode.charCodeAt(2) + monthYear.charCodeAt(5) + monthYear.charCodeAt(6)`. -/
def mockSeed (districtCode monthYear : String) : ℚ :=
  (charCodeAt districtCode 2 : ℚ) + (charCodeAt monthYear 5 : ℚ) + (charCodeAt monthYear 6 : ℚ)

/-- The `seededRandom(min, max)` closure of `generateMockData`:
`min + Math.floor((x - Math.floor(x)) * (max - min + 1))` with
`x = Math.sin(seed) * 10000`; `sinFn` abstracts the `Math.sin` primitive. -/
def seededRandom (sinFn : ℚ → ℚ) (seed mn mx : ℚ) : ℚ :=
  mn + ((⌊(sinFn seed * 10000 - ((⌊sinFn seed * 10000⌋ : ℤ) : ℚ)) * (mx - mn + 1)⌋ : ℤ) : ℚ)

/-- The `financial_year` string of the mock bundle:
first dash-separated component of the period, then that year plus one. -/
def mkFinancialYear (monthYear : String) : String :=
  match monthYear.splitOn ("-") with
  | y :: _ => y ++ "-" ++ toString ((y.toNat?.getD 0) + 1)
  | [] => "-1"

/-- `generateMockData(districtCode, monthYear)`.  `nowIso` stands for the
`new Date().toISOString()` reading taken inside the call; every other field
is a pure function of the seed and the argument strings. -/
def generateMockData (sinFn : ℚ → ℚ) (districtCode monthYear nowIso : String) : Bundle :=
  let district := andhraPradeshDistricts.find? (fun d => decide (d.code = districtCode))
  let seed := mockSeed districtCode monthYear
  let baseHouseholds := seededRandom sinFn seed 15000 45000
  let avgDaysPerHousehold := seededRandom sinFn seed 18 28
  let totalPersonDays : ℚ := ((⌊baseHouseholds * avgDaysPerHousehold⌋ : ℤ) : ℚ)
  let wageRate := seededRandom sinFn seed 200 250
  let totalAmount := totalPersonDays * wageRate
  let totalAmountCrores := totalAmount / 10000000
  { district_code := districtCode
    district_name := ((district.map (fun d => d.name)).getD ("Unknown"))
    month_year := monthYear
    total_households := baseHouseholds
    total_person_days := totalPersonDays
    total_amount_spent := totalAmountCrores
    avg_days_per_household := jsRound2 avgDaysPerHousehold
    avg_amount_per_household := jsRound2 (totalAmountCrores / baseHouseholds)
    performance_score := seededRandom sinFn seed 75 95
    data_source := "mock_data"
    last_updated := nowIso
    financial_year := mkFinancialYear monthYear
    month := ((monthYear.splitOn ("-")).getD 1 (""))
    average_wage_rate := wageRate
    women_persondays := ((⌊totalPersonDays * (4 / 10 : ℚ)⌋ : ℤ) : ℚ)
    sc_persondays := ((⌊totalPersonDays * (15 / 100 : ℚ)⌋ : ℤ) : ℚ)
    st_persondays := ((⌊totalPersonDays * (8 / 100 : ℚ)⌋ : ℤ) : ℚ)
    completed_works := seededRandom sinFn seed 50 200
    ongoing_works := seededRandom sinFn seed 100 300
    total_individuals_worked := ((⌊baseHouseholds * (12 / 10 : ℚ)⌋ : ℤ) : ℚ)
    total_job_cards := ((⌊baseHouseholds * (11 / 10 : ℚ)⌋ : ℤ) : ℚ)
    households_100_days := ((⌊baseHouseholds * (15 / 100 : ℚ)⌋ : ℤ) : ℚ)
    differently_abled_worked := ((⌊baseHouseholds * (2 / 100 : ℚ)⌋ : ℤ) : ℚ)
    payment_within_15_days := seededRandom sinFn seed 75 95 }

/-- A UTC wall-clock reading broken into civil components, as rendered by
`Date.prototype.toISOString` and SQLite `datetime('now')`. -/
structure Time where
  y : ℕ
  mo : ℕ
  d : ℕ
  h : ℕ
  mi : ℕ
  s : ℕ
  ms : ℕ
  deriving DecidableEq, Repr

/-- Component ranges under which the two timestamp renderings are the
standard zero-padded digit strings. -/
def ValidTime (t : Time) : Prop :=
  t.y < 10000 ∧ 1 ≤ t.mo ∧ t.mo ≤ 12 ∧ 1 ≤ t.d ∧ t.d ≤ 31 ∧
    t.h < 24 ∧ t.mi < 60 ∧ t.s < 60 ∧ t.ms < 1000

instance (t : Time) : Decidable (ValidTime t) := by
  unfold ValidTime; infer_instance

/-- The ASCII digit character for `n < 10`. -/
def digitChar (n : ℕ) : Char := Char.ofNat (48 + n)

/-- Two-digit zero-padded decimal rendering of `n < 100`. -/
def pad2 (n : ℕ) : List Char := [digitChar (n / 10 % 10), digitChar (n % 10)]

/-- Three-digit zero-padded decimal rendering (the milliseconds field). -/
def pad3 (n : ℕ) : List Char :=
  [digitChar (n / 100 % 10), digitChar (n / 10 % 10), digitChar (n % 10)]

/-- Four-digit zero-padded decimal rendering (the year field). -/
def pad4 (n : ℕ) : List Char := pad2 (n / 100) ++ pad2 (n % 100)

/-- Strict byte-wise (memcmp) comparison of character lists: this is the
BINARY collation SQLite applies when comparing two TEXT values. -/
def lexLt : List Char → List Char → Bool
  | _, [] => false
  | [], _ :: _ => true
  | a :: as, b :: bs => if a < b then true else if a = b then lexLt as bs else false

/-- The `YYYY-MM-DD` date prefix shared by both timestamp renderings. -/
def dateChars (t : Time) : List Char :=
  pad4 t.y ++ '-' :: pad2 t.mo ++ '-' :: pad2 t.d

/-- The `HH:MM:SS` time-of-day segment shared by both renderings. -/
def todChars (t : Time) : List Char :=
  pad2 t.h ++ ':' :: pad2 t.mi ++ ':' :: pad2 t.s

/-- Characters of `new Date(...).toISOString()`:
`YYYY-MM-DDTHH:MM:SS.mmmZ`. -/
def isoChars (t : Time) : List Char :=
  dateChars t ++ 'T' :: todChars t ++ '.' :: pad3 t.ms ++ ['Z']

/-- Characters of SQLite `datetime('now')`: `YYYY-MM-DD HH:MM:SS`. -/
def sqliteChars (t : Time) : List Char := dateChars t ++ ' ' :: todChars t

/-- `new Date(...).toISOString()` as a string. -/
def isoOfTime (t : Time) : String := String.mk (isoChars t)

/-- SQLite `datetime('now')` as a string. -/
def sqliteOfTime (t : Time) : String := String.mk (sqliteChars t)

/-- Gregorian leap-year test, as used by `Date`'s UTC calendar. -/
def isLeap (y : ℕ) : Bool := (y % 4 = 0 && y % 100 ≠ 0) || y % 400 = 0

/-- Days in a civil month of the proleptic Gregorian calendar. -/
def daysInMonth (y mo : ℕ) : ℕ :=
  if mo = 2 then (if isLeap y then 29 else 28)
  else if mo = 4 ∨ mo = 6 ∨ mo = 9 ∨ mo = 11 then 30
  else 31

/-- The civil date one day after `t`'s date. -/
def nextDate (t : Time) : ℕ × ℕ × ℕ :=
  if t.d < daysInMonth t.y t.mo then (t.y, t.mo, t.d + 1)
  else if t.mo < 12 then (t.y, t.mo + 1, 1)
  else (t.y + 1, 1, 1)

/-- The fixed cache TTL passed to `setCachedData`: `6 * 60 * 60 * 1000`. -/
def TTLms : ℕ := 6 * 60 * 60 * 1000

/-- Milliseconds elapsed since midnight at `t`. -/
def msOfDay (t : Time) : ℕ := ((t.h * 60 + t.mi) * 60 + t.s) * 1000 + t.ms

/-- `new Date(Date.now() + 6*60*60*1000)` in UTC civil components: adding
the 6-hour TTL rolls the date over at most once. -/
def addTTL (t : Time) : Time :=
  let tot := msOfDay t + TTLms
  if tot < 86400000 then
    ⟨t.y, t.mo, t.d, tot / 3600000, tot / 60000 % 60, tot / 1000 % 60, tot % 1000⟩
  else
    let tot2 := tot - 86400000
    let nd := nextDate t
    ⟨nd.1, nd.2.1, nd.2.2, tot2 / 3600000, tot2 / 60000 % 60, tot2 / 1000 % 60, tot2 % 1000⟩

/-- Strict chronological order on wall-clock readings (lexicographic on the
civil components). -/
def timeLt (a b : Time) : Prop :=
  a.y < b.y ∨ (a.y = b.y ∧ (a.mo < b.mo ∨ (a.mo = b.mo ∧ (a.d < b.d ∨ (a.d = b.d ∧
    (a.h < b.h ∨ (a.h = b.h ∧ (a.mi < b.mi ∨ (a.mi = b.mi ∧
      (a.s < b.s ∨ (a.s = b.s ∧ a.ms < b.ms)))))))))))

instance (a b : Time) : Decidable (timeLt a b) := by
  unfold timeLt; infer_instance

/-- One row of the `api_cache` table: unique key, serialized bundle
(serialization round-trips are modelled as the identity), and the
`expires_at` TEXT value. -/
structure CacheRow where
  key : String
  payload : Bundle
  expires : String
  deriving DecidableEq, Repr

/-- The `api_cache` table (at most one row per key). -/
def CacheState := List CacheRow

/-- `getCachedData(key)`: the row must satisfy the SQL condition
`cache_key = ? AND expires_at > datetime('now')`, where `>` on two TEXT
values is a byte-wise comparison; `nowStr` is `datetime('now')`. -/
def getCachedData (st : CacheState) (nowStr key : String) : Option Bundle :=
  (List.find? (fun r => r.key == key && lexLt nowStr.data r.expires.data) st).map
    (fun r => r.payload)

/-- `setCachedData(key, data, 6*60*60*1000)`: a no-op in read-only mode,
otherwise `INSERT OR REPLACE` with
`expires_at = new Date(Date.now() + ttl).toISOString()`. -/
def setCachedData (readOnly : Bool) (st : CacheState) (key : String) (data : Bundle)
    (now : Time) : CacheState :=
  if readOnly then st
  else ⟨key, data, isoOfTime (addTTL now)⟩ :: st.filter (fun r => !(r.key == key))

/-- The cache key of `fetchDistrictData`:
`district_${districtCode}_${monthYear}`. -/
def cacheKey (districtCode monthYear : String) : String :=
  "district_" ++ districtCode ++ "_" ++ monthYear

/-- The per-call environment of `fetchDistrictData`: the upstream HTTP
outcome (`axios.get`: failure, or a response whose `data.records` may be
absent), whether the two SQLite operations fail, the read-only deployment
flag, and the abstract `Math.sin` primitive. -/
structure FetchEnv where
  httpResult : Except Unit (Option (List ApiRecord))
  cacheReadFails : Bool
  cacheWriteFails : Bool
  readOnly : Bool
  sinFn : ℚ → ℚ

/-- What `fetchDistrictData` produces: the value returned or error thrown,
whether the upstream fetch was attempted, and the cache table afterwards. -/
structure FetchOut where
  result : Except String Bundle
  usedUpstream : Bool
  state : CacheState

/-- The `realData` computed inside `fetchDistrictData`: `fetchRealAPIData`
either throws (HTTP failure, missing `records`, or `processAPIData`'s
no-match error) — which the inner catch turns into `null` — or yields the
processed bundle. -/
def realDataOf (env : FetchEnv) (districtCode monthYear nowIso : String) : Option Bundle :=
  match env.httpResult with
  | .error _ => none
  | .ok none => none
  | .ok (some records) =>
    match processAPIData records districtCode monthYear nowIso with
    | .ok b => some b
    | .error _ => none

/-- `fetchDistrictData(districtCode, monthYear)`.  A failing cache read or
cache write rejects inside the outer `try`, whose `catch` throws
`Error('Failed to fetch district data')`; an upstream failure only falls
back to `generateMockData`.  In read-only mode the cache write is a no-op
and cannot fail. -/
def fetchDistrictData (env : FetchEnv) (st : CacheState) (districtCode monthYear : String)
    (now : Time) : FetchOut :=
  if env.cacheReadFails then
    ⟨.error ("Failed to fetch district data"), false, st⟩
  else
    match getCachedData st (sqliteOfTime now) (cacheKey districtCode monthYear) with
    | some cachedData => ⟨.ok cachedData, false, st⟩
    | none =>
      let data :=
        (realDataOf env districtCode monthYear (isoOfTime now)).getD
          (generateMockData env.sinFn districtCode monthYear (isoOfTime now))
      if env.cacheWriteFails && !env.readOnly then
        ⟨.error ("Failed to fetch district data"), true, st⟩
      else
        ⟨.ok data, true,
          setCachedData env.readOnly st (cacheKey districtCode monthYear) data now⟩

/-- A year-month pair, the `moment` value `getDistrictHistory` formats as
`YYYY-MM`. -/
structure YM where
  y : ℕ
  mo : ℕ
  deriving DecidableEq, Repr

/-- Zero-based absolute month index of a year-month pair. -/
def monthIdx (t : YM) : ℕ := t.y * 12 + (t.mo - 1)

/-- The year-month pair of an absolute month index. -/
def ymOfIdx (n : ℕ) : YM := ⟨n / 12, n % 12 + 1⟩

/-- `moment(now).subtract(i, 'months')`. -/
def subMonths (now : YM) (i : ℕ) : YM := ymOfIdx (monthIdx now - i)

/-- `moment(...).format('YYYY-MM')`. -/
def formatYM (t : YM) : String := String.mk (pad4 t.y ++ '-' :: pad2 t.mo)

/-- One element of the history array assembled by `getDistrictHistory`. -/
structure HistEntry where
  month_year : String
  total_households : ℚ
  total_person_days : ℚ
  total_amount_spent : ℚ
  avg_days_per_household : ℚ
  avg_amount_per_household : ℚ
  performance_score : ℚ
  data_source : String
  deriving DecidableEq, Repr

/-- The history element pushed when `fetchDistrictData` succeeds for a
month (`data_source: data.data_source || 'api'`). -/
def histEntryOfBundle (monthYear : String) (data : Bundle) : HistEntry :=
  { month_year := monthYear
    total_households := data.total_households
    total_person_days := data.total_person_days
    total_amount_spent := data.total_amount_spent
    avg_days_per_household := data.avg_days_per_household
    avg_amount_per_household := data.avg_amount_per_household
    performance_score := data.performance_score
    data_source := jsOrStr data.data_source ("api") }

/-- The history element pushed when the per-month fetch fails: the bundle
is regenerated with `generateMockData` and tagged `'mock'`. -/
def mockHistEntry (sinFn : ℚ → ℚ) (districtCode monthYear nowIso : String) : HistEntry :=
  let mockData := generateMockData sinFn districtCode monthYear nowIso
  { month_year := monthYear
    total_households := mockData.total_households
    total_person_days := mockData.total_person_days
    total_amount_spent := mockData.total_amount_spent
    avg_days_per_household := mockData.avg_days_per_household
    avg_amount_per_household := mockData.avg_amount_per_household
    performance_score := mockData.performance_score
    data_source := "mock" }

/-- `getDistrictHistory(districtCode, months)`: for `i` in `0..months-1`
compute the period `i` months before `now`, attempt the fetch (`fetchFn`
stands for the outcome `this.fetchDistrictData` yields for that period),
substitute a mock entry when it throws, and return the accumulated array
reversed into chronological order. -/
def getDistrictHistory (fetchFn : String → Except String Bundle) (sinFn : ℚ → ℚ)
    (districtCode : String) (months : ℕ) (now : YM) (nowIso : String) : List HistEntry :=
  ((List.range months).map (fun i =>
    let monthYear := formatYM (subMonths now i)
    match fetchFn monthYear with
    | .ok data => histEntryOfBundle monthYear data
    | .error _ => mockHistEntry sinFn districtCode monthYear nowIso)).reverse

/-- Boolean success test for a fetch outcome. -/
def isOkB (r : Except String Bundle) : Bool :=
  match r with
  | .ok _ => true
  | .error _ => false

/-- Strips the wall-clock field of a bundle, for comparing two generator
outputs up to their `last_updated` timestamps. -/
def stripTimestamp (b : Bundle) : Bundle := { b with last_updated := "" }

/-- A concrete bundle with trivial field values, used to populate cache
rows in concrete scenarios. -/
def sampleBundle : Bundle :=
  { district_code := "AP001", district_name := "Anantapur", month_year := "2024-01"
    total_households := 0, total_person_days := 0, total_amount_spent := 0
    avg_days_per_household := 0, avg_amount_per_household := 0, performance_score := 0
    data_source := "mock_data", last_updated := "x", financial_year := "2024-2025"
    month := "01", average_wage_rate := 0, women_persondays := 0, sc_persondays := 0
    st_persondays := 0, completed_works := 0, ongoing_works := 0
    total_individuals_worked := 0, total_job_cards := 0, households_100_days := 0
    differently_abled_worked := 0, payment_within_15_days := 0 }

/-- The single upstream row of the end-to-end scenario: label `NTR`,
`Total_Exp = 12.5`, `Total_Households_Worked = 20000`,
`Persondays_of_Central_Liability_so_far = 450000`. -/
def ntrRecord : ApiRecord :=
  { district_name := some ("NTR"), Total_Exp := some (25 / 2),
    Total_Households_Worked := some 20000,
    Persondays_of_Central_Liability_so_far := some 450000 }

/-- An upstream row labelled `Y.S.R. Kadapa`. -/
def ysrRecord : ApiRecord := { district_name := some ("Y.S.R. Kadapa") }

/-- An upstream row labelled `Unknown District`. -/
def unknownRecord : ApiRecord := { district_name := some ("Unknown District") }

/-- A fetch environment with healthy persistence, a failing upstream call,
writable deployment, and a trivial `Math.sin` stand-in. -/
def envGood : FetchEnv := ⟨.error (), false, false, false, fun _ => 0⟩

/-- A fetch environment identical to `envGood` except that the cache write
rejects with a persistence error. -/
def envBad : FetchEnv := ⟨.error (), false, true, false, fun _ => 0⟩


lemma lexLt_append_same (l a b : List Char) : lexLt (l ++ a) (l ++ b) = lexLt a b := by
  induction l with
  | nil => rfl
  | cons c cs ih => simp [lexLt, ih]

lemma lexLt_cons_prefix (p : List Char) (c : Char) (a b : List Char) :
    lexLt (p ++ c :: a) (p ++ c :: b) = lexLt a b := by
  rw [show p ++ c :: a = (p ++ [c]) ++ a by simp, show p ++ c :: b = (p ++ [c]) ++ b by simp,
    lexLt_append_same]

lemma lexLt_append_of_lexLt :
    ∀ a b u v : List Char, lexLt a b = true → a.length = b.length →
      lexLt (a ++ u) (b ++ v) = true := by
  intro a
  induction a with
  | nil =>
    intro b u v hab hlen
    cases b with
    | nil => simp [lexLt] at hab
    | cons y ys => simp at hlen
  | cons x xs ih =>
    intro b u v hab hlen
    cases b with
    | nil => simp [lexLt] at hab
    | cons y ys =>
      simp only [lexLt, List.cons_append] at hab ⊢
      by_cases hxy : x < y
      · simp [hxy]
      · simp only [hxy, if_false] at hab ⊢
        by_cases hxe : x = y
        · simp only [hxe, if_true] at hab ⊢
          exact ih ys u v hab (by simpa using hlen)
        · simp [hxe] at hab

set_option maxRecDepth 4096 in
lemma pad2_mono : ∀ a, a < 100 → ∀ b, b < 100 → a < b → lexLt (pad2 a) (pad2 b) = true := by
  decide

lemma pad4_mono (a b : ℕ) (ha : a < 10000) (hb : b < 10000) (hab : a < b) :
    lexLt (pad4 a) (pad4 b) = true := by
  unfold pad4
  rcases Nat.lt_or_ge (a / 100) (b / 100) with hq | hq
  · exact lexLt_append_of_lexLt _ _ _ _ (pad2_mono _ (by omega) _ (by omega) hq) rfl
  · have hqe : a / 100 = b / 100 := by omega
    rw [hqe, lexLt_append_same]
    exact pad2_mono _ (by omega) _ (by omega) (by omega)

lemma sql_lt_iso (t e : Time) (ht : ValidTime t) (he : ValidTime e) (hlt : timeLt t e) :
    lexLt (sqliteChars t) (isoChars e) = true := by
  obtain ⟨hty, -, htmo2, -, htd2, -, -, -, -⟩ := ht
  obtain ⟨hey, -, hemo2, -, hed2, -, -, -, -⟩ := he
  unfold timeLt at hlt
  unfold sqliteChars isoChars dateChars
  simp only [List.append_assoc, List.cons_append]
  rcases hlt with hy | ⟨hy, hmo | ⟨hmo, hd | ⟨hd, -⟩⟩⟩
  · exact lexLt_append_of_lexLt _ _ _ _ (pad4_mono _ _ hty hey hy) rfl
  · rw [hy, lexLt_cons_prefix]
    exact lexLt_append_of_lexLt _ _ _ _ (pad2_mono _ (by omega) _ (by omega) hmo) rfl
  · rw [hy, hmo, lexLt_cons_prefix, lexLt_cons_prefix]
    exact lexLt_append_of_lexLt _ _ _ _ (pad2_mono _ (by omega) _ (by omega) hd) rfl
  · rw [hy, hmo, hd, lexLt_cons_prefix, lexLt_cons_prefix, lexLt_append_same]
    simp [lexLt]

lemma formatYM_lt (m n : ℕ) (hmn : m < n) (hn : n ≤ 119999) :
    lexLt (formatYM (ymOfIdx m)).data (formatYM (ymOfIdx n)).data = true := by
  have hdm : (formatYM (ymOfIdx m)).data = pad4 (m / 12) ++ '-' :: pad2 (m % 12 + 1) := rfl
  have hdn : (formatYM (ymOfIdx n)).data = pad4 (n / 12) ++ '-' :: pad2 (n % 12 + 1) := rfl
  rw [hdm, hdn]
  rcases Nat.lt_or_ge (m / 12) (n / 12) with hq | hq
  · exact lexLt_append_of_lexLt _ _ _ _ (pad4_mono _ _ (by omega) (by omega) hq) rfl
  · have hqe : m / 12 = n / 12 := by omega
    rw [hqe, lexLt_cons_prefix]
    exact pad2_mono _ (by omega) _ (by omega) (by omega)

lemma headMatches_iff (needle hay : List Char) :
    headMatches needle hay = true ↔ ∃ suf, hay = needle ++ suf := by
  induction needle generalizing hay with
  | nil => simp [headMatches]
  | cons a as ih =>
    cases hay with
    | nil => simp [headMatches]
    | cons b bs =>
      simp only [headMatches, Bool.and_eq_true, decide_eq_true_eq, ih, List.cons_append,
        List.cons.injEq]
      constructor
      · rintro ⟨rfl, suf, rfl⟩
        exact ⟨suf, rfl, rfl⟩
      · rintro ⟨suf, rfl, rfl⟩
        exact ⟨rfl, suf, rfl⟩

lemma containsSub_iff (hay needle : List Char) :
    containsSub hay needle = true ↔ ∃ pre suf, hay = pre ++ needle ++ suf := by
  induction hay with
  | nil =>
    simp only [containsSub, List.isEmpty_iff]
    constructor
    · rintro rfl
      exact ⟨[], [], rfl⟩
    · rintro ⟨pre, suf, h⟩
      rcases List.append_eq_nil.mp (List.append_eq_nil.mp h.symm).1 with ⟨-, h2⟩
      exact h2
  | cons c rest ih =>
    simp only [containsSub, Bool.or_eq_true, headMatches_iff, ih]
    constructor
    · rintro (⟨suf, h⟩ | ⟨pre, suf, rfl⟩)
      · exact ⟨[], suf, by simpa using h⟩
      · exact ⟨c :: pre, suf, by simp⟩
    · rintro ⟨pre, suf, h⟩
      cases pre with
      | nil =>
        left
        exact ⟨suf, by simpa using h⟩
      | cons p ps =>
        right
        simp only [List.cons_append, List.cons.injEq] at h
        exact ⟨ps, suf, h.2⟩

lemma householdBonus_nonneg (q : ℚ) : 0 ≤ householdBonus q := by
  unfold householdBonus
  split_ifs <;> norm_num

lemma intensityBonus_nonneg (q : ℚ) : 0 ≤ intensityBonus q := by
  unfold intensityBonus
  split_ifs <;> norm_num

lemma householdBonus_mono {a b : ℚ} (hab : a ≤ b) : householdBonus a ≤ householdBonus b := by
  unfold householdBonus
  split_ifs <;> linarith

lemma intensityBonus_mono {a b : ℚ} (hab : a ≤ b) : intensityBonus a ≤ intensityBonus b := by
  unfold intensityBonus
  split_ifs <;> linarith

lemma score_bounds (th tp : ℚ) :
    0 ≤ calculatePerformanceScore th tp ∧ calculatePerformanceScore th tp ≤ 100 := by
  unfold calculatePerformanceScore
  constructor
  · exact le_min (by linarith [householdBonus_nonneg th,
      intensityBonus_nonneg (if 0 < th then tp / th else 0)]) (by norm_num)
  · exact min_le_right _ _

lemma seededRandom_mem (sinFn : ℚ → ℚ) (seed : ℚ) :
    75 ≤ seededRandom sinFn seed 75 95 ∧ seededRandom sinFn seed 75 95 ≤ 95 := by
  unfold seededRandom
  have hr : ((95 : ℚ) - 75 + 1) = 21 := by norm_num
  rw [hr]
  set x := sinFn seed * 10000 with hx
  have h0 : (0 : ℚ) ≤ x - (⌊x⌋ : ℚ) := by linarith [Int.floor_le x]
  have h1 : x - (⌊x⌋ : ℚ) < 1 := by linarith [Int.lt_floor_add_one x]
  have hf0 : 0 ≤ ⌊(x - (⌊x⌋ : ℚ)) * 21⌋ :=
    Int.floor_nonneg.mpr (mul_nonneg h0 (by norm_num))
  have hm21 : (x - (⌊x⌋ : ℚ)) * 21 < 21 := by
    have := mul_lt_mul_of_pos_right h1 (show (0 : ℚ) < 21 by norm_num)
    simpa using this
  have hf1 : ⌊(x - (⌊x⌋ : ℚ)) * 21⌋ < 21 := Int.floor_lt.mpr (by exact_mod_cast hm21)
  constructor
  · have hc : (0 : ℚ) ≤ ((⌊(x - (⌊x⌋ : ℚ)) * 21⌋ : ℤ) : ℚ) := by exact_mod_cast hf0
    linarith
  · have hc : ((⌊(x - (⌊x⌋ : ℚ)) * 21⌋ : ℤ) : ℚ) ≤ 20 := by
      exact_mod_cast Int.lt_add_one_iff.mp hf1
    linarith

lemma mock_score_eq (sinFn : ℚ → ℚ) (c p n : String) :
    (generateMockData sinFn c p n).performance_score =
      seededRandom sinFn (mockSeed c p) 75 95 := rfl

lemma mock_payment_eq (sinFn : ℚ → ℚ) (c p n : String) :
    (generateMockData sinFn c p n).payment_within_15_days =
      seededRandom sinFn (mockSeed c p) 75 95 := rfl

lemma intensityBonus_zero : intensityBonus 0 = 0 := by
  unfold intensityBonus
  norm_num

/-- C9: in every bundle produced by the synthetic data generator, the
`payment_within_15_days` field equals the `performance_score` field: both
are drawn as `seededRandom(75, 95)`, and every bounded draw within one
call uses the same seed, so equal ranges yield equal values. -/
theorem mock_payment_eq_score (sinFn : ℚ → ℚ) (districtCode monthYear nowIso : String) :
    (generateMockData sinFn districtCode monthYear nowIso).payment_within_15_days =
      (generateMockData sinFn districtCode monthYear nowIso).performance_score := rfl

/-- C2 (amended): for a fixed `(entity_code, period)`, two independent
calls to the synthetic generator produce bundles that agree on every field
except `last_updated`, which records each call's own wall-clock reading. -/
theorem generateMockData_deterministic_up_to_timestamp (sinFn : ℚ → ℚ)
    (districtCode monthYear now1 now2 : String) :
    stripTimestamp (generateMockData sinFn districtCode monthYear now1) =
      stripTimestamp (generateMockData sinFn districtCode monthYear now2) := rfl

/-- C2 counterexample: two calls of the synthetic generator for the same
`(entity_code, period)` made at different wall-clock instants return
bundles that are not identical — their `last_updated` fields differ — so
the two calls are not byte-identical as claimed. -/
theorem generateMockData_differs_across_clock :
    generateMockData (fun _ => 0) ("AP001") ("2024-03") ("2024-01-01T00:00:00.000Z") ≠
      generateMockData (fun _ => 0) ("AP001") ("2024-03") ("2024-01-01T00:00:01.000Z") := by
  intro h
  exact absurd (congrArg Bundle.last_updated h) (by decide)

/-- C6: the scorer is bounded — `0 ≤ performance_score ≤ 100` for all
inputs, including the synthetic generator's seeded score — monotonically
non-decreasing in `total_households` holding `person_days/households`
fixed, and monotonically non-decreasing in `total_person_days` (hence in
`person_days/households`) holding `total_households` fixed. -/
theorem score_bounded_and_monotone :
    (∀ th tp : ℚ, 0 ≤ calculatePerformanceScore th tp ∧ calculatePerformanceScore th tp ≤ 100) ∧
    (∀ r th th2 : ℚ, th ≤ th2 →
      calculatePerformanceScore th (th * r) ≤ calculatePerformanceScore th2 (th2 * r)) ∧
    (∀ th tp tp2 : ℚ, tp ≤ tp2 →
      calculatePerformanceScore th tp ≤ calculatePerformanceScore th tp2) ∧
    (∀ (sinFn : ℚ → ℚ) (districtCode monthYear nowIso : String),
      0 ≤ (generateMockData sinFn districtCode monthYear nowIso).performance_score ∧
      (generateMockData sinFn districtCode monthYear nowIso).performance_score ≤ 100) := by
  refine ⟨score_bounds, ?_, ?_, ?_⟩
  · intro r th th2 hle
    unfold calculatePerformanceScore
    dsimp only
    by_cases h0 : 0 < th
    · have h02 : 0 < th2 := lt_of_lt_of_le h0 hle
      rw [if_pos h0, if_pos h02]
      have he1 : th * r / th = r := by field_simp
      have he2 : th2 * r / th2 = r := by field_simp
      rw [he1, he2]
      exact min_le_min (by linarith [householdBonus_mono hle]) le_rfl
    · rw [if_neg h0]
      by_cases h02 : 0 < th2
      · rw [if_pos h02]
        have he2 : th2 * r / th2 = r := by field_simp
        rw [he2, intensityBonus_zero]
        exact min_le_min
          (by linarith [householdBonus_mono hle, intensityBonus_nonneg r]) le_rfl
      · rw [if_neg h02]
        exact min_le_min (by linarith [householdBonus_mono hle]) le_rfl
  · intro th tp tp2 hle
    unfold calculatePerformanceScore
    dsimp only
    by_cases h0 : 0 < th
    · rw [if_pos h0, if_pos h0]
      have hdiv : tp / th ≤ tp2 / th := (div_le_div_iff_of_pos_right h0).mpr hle
      exact min_le_min (by linarith [intensityBonus_mono hdiv]) le_rfl
    · rw [if_neg h0, if_neg h0]
  · intro sinFn dc my n
    rw [mock_score_eq]
    have h := seededRandom_mem sinFn (mockSeed dc my)
    exact ⟨by linarith [h.1], by linarith [h.2]⟩

/-- Witness for C6: a concrete instantiation of the household-monotonicity
conjunct with its hypothesis discharged at `th = 1 ≤ 2 = th2`, `r = 30`. -/
theorem score_bounded_and_monotone_witness :
    ((1 : ℚ) ≤ 2) ∧
      calculatePerformanceScore 1 (1 * 30) ≤ calculatePerformanceScore 2 (2 * 30) :=
  ⟨by norm_num, score_bounded_and_monotone.2.1 30 1 2 (by norm_num)⟩

/-- C10: the synthetic generator's output does not depend on the year of
the period: for one district code and two periods of the `YYYY-MM` form
whose month-digit characters (string positions 5 and 6) agree,
`generateMockData` produces equal values for every numeric field, because
the seed reads only character 2 of the code and characters 5 and 6 of the
period. -/
theorem mock_year_independent (sinFn : ℚ → ℚ) (districtCode p1 p2 nowIso : String)
    (hl1 : p1.length = 7) (hl2 : p2.length = 7)
    (h5 : charCodeAt p1 5 = charCodeAt p2 5) (h6 : charCodeAt p1 6 = charCodeAt p2 6) :
    (generateMockData sinFn districtCode p1 nowIso).total_households =
      (generateMockData sinFn districtCode p2 nowIso).total_households ∧
    (generateMockData sinFn districtCode p1 nowIso).total_person_days =
      (generateMockData sinFn districtCode p2 nowIso).total_person_days ∧
    (generateMockData sinFn districtCode p1 nowIso).total_amount_spent =
      (generateMockData sinFn districtCode p2 nowIso).total_amount_spent ∧
    (generateMockData sinFn districtCode p1 nowIso).avg_days_per_household =
      (generateMockData sinFn districtCode p2 nowIso).avg_days_per_household ∧
    (generateMockData sinFn districtCode p1 nowIso).avg_amount_per_household =
      (generateMockData sinFn districtCode p2 nowIso).avg_amount_per_household ∧
    (generateMockData sinFn districtCode p1 nowIso).performance_score =
      (generateMockData sinFn districtCode p2 nowIso).performance_score ∧
    (generateMockData sinFn districtCode p1 nowIso).average_wage_rate =
      (generateMockData sinFn districtCode p2 nowIso).average_wage_rate ∧
    (generateMockData sinFn districtCode p1 nowIso).women_persondays =
      (generateMockData sinFn districtCode p2 nowIso).women_persondays ∧
    (generateMockData sinFn districtCode p1 nowIso).sc_persondays =
      (generateMockData sinFn districtCode p2 nowIso).sc_persondays ∧
    (generateMockData sinFn districtCode p1 nowIso).st_persondays =
      (generateMockData sinFn districtCode p2 nowIso).st_persondays ∧
    (generateMockData sinFn districtCode p1 nowIso).completed_works =
      (generateMockData sinFn districtCode p2 nowIso).completed_works ∧
    (generateMockData sinFn districtCode p1 nowIso).ongoing_works =
      (generateMockData sinFn districtCode p2 nowIso).ongoing_works ∧
    (generateMockData sinFn districtCode p1 nowIso).total_individuals_worked =
      (generateMockData sinFn districtCode p2 nowIso).total_individuals_worked ∧
    (generateMockData sinFn districtCode p1 nowIso).total_job_cards =
      (generateMockData sinFn districtCode p2 nowIso).total_job_cards ∧
    (generateMockData sinFn districtCode p1 nowIso).households_100_days =
      (generateMockData sinFn districtCode p2 nowIso).households_100_days ∧
    (generateMockData sinFn districtCode p1 nowIso).differently_abled_worked =
      (generateMockData sinFn districtCode p2 nowIso).differently_abled_worked ∧
    (generateMockData sinFn districtCode p1 nowIso).payment_within_15_days =
      (generateMockData sinFn districtCode p2 nowIso).payment_within_15_days := by
  have hs : mockSeed districtCode p1 = mockSeed districtCode p2 := by
    unfold mockSeed
    rw [h5, h6]
  refine ⟨?_, ?_, ?_, ?_, ?_, ?_, ?_, ?_, ?_, ?_, ?_, ?_, ?_, ?_, ?_, ?_, ?_⟩ <;> simp only [generateMockData] <;> rw [hs]

/-- Witness for C10: the periods `2023-07` and `2024-07` differ only in
the year and yield the same seeded household count. -/
theorem mock_year_independent_witness :
    (charCodeAt ("2023-07") 5 = charCodeAt ("2024-07") 5) ∧
      (generateMockData (fun _ => 0) ("AP001") ("2023-07") ("x")).total_households =
        (generateMockData (fun _ => 0) ("AP001") ("2024-07") ("x")).total_households :=
  ⟨by decide,
    (mock_year_independent (fun _ => 0) ("AP001") ("2023-07") ("2024-07") ("x")
      (by decide) (by decide) (by decide) (by decide)).1⟩

/-- C5: end-to-end scenario — for entity code `AP004`, period `2024-03`,
and an upstream response containing exactly one row with
`district_name="NTR"`, `Total_Exp=12.5`, `Total_Households_Worked=20000`
and `Persondays_of_Central_Liability_so_far=450000`, the returned bundle
has `total_amount_spent = 12.5`, is tagged with the upstream data source
`data.gov.in`, and has a performance score between 85 and 100 inclusive
(it is exactly 85: base 60, +10 household tier, +15 intensity tier). -/
theorem processAPIData_ntr_scenario :
    ∃ b : Bundle,
      processAPIData [ntrRecord] ("AP004") ("2024-03") ("2024-04-01T00:00:00.000Z") = .ok b ∧
      b.total_amount_spent = 25 / 2 ∧ b.data_source = "data.gov.in" ∧
      85 ≤ b.performance_score ∧ b.performance_score ≤ 100 := by
  refine ⟨_, rfl, ?_, ?_, ?_, ?_⟩
  · show jsParseFloat ntrRecord.Total_Exp = 25 / 2
    norm_num [ntrRecord, jsParseFloat]
  · rfl
  · show 85 ≤ calculatePerformanceScore (jsParseInt ntrRecord.Total_Households_Worked)
      (jsParseInt ntrRecord.Persondays_of_Central_Liability_so_far)
    norm_num [ntrRecord, jsParseInt, jsTrunc, calculatePerformanceScore, householdBonus,
      intensityBonus, min_def]
  · show calculatePerformanceScore (jsParseInt ntrRecord.Total_Households_Worked)
      (jsParseInt ntrRecord.Persondays_of_Central_Liability_so_far) ≤ 100
    norm_num [ntrRecord, jsParseInt, jsTrunc, calculatePerformanceScore, householdBonus,
      intensityBonus, min_def]

/-- C8: the name matcher succeeds exactly when the lowercased upstream
label contains some candidate — the exact lowercase name, the
whitespace-removed and whitespace-to-dot variants, or a curated alias for
the entity code — as a substring; concretely, the label `Y.S.R. Kadapa`
matches target code `AP013`, the label `Unknown District` matches none of
the thirteen registry codes, and processing a response consisting only of
that row takes the zero-match error path. -/
theorem matcher_substring_cases :
    (∀ (label : String) (d : District),
      labelMatches label d = true ↔
        ∃ cand ∈ possibleNames d, ∃ pre suf, (lowerStr label).data = pre ++ cand.data ++ suf) ∧
    matchesRecord ysrRecord ("AP013") = true ∧
    (andhraPradeshDistricts.all (fun d => !(matchesRecord unknownRecord d.code))) = true ∧
    (∃ msg, processAPIData [unknownRecord] ("AP013") ("2024-03") ("x") = .error msg) := by
  refine ⟨?_, by decide, by decide, ⟨_, rfl⟩⟩
  · intro label d
    simp only [labelMatches, jsIncludes, List.any_eq_true, containsSub_iff]

/-- C3 (code bug): a cache row written with the 6-hour TTL at midnight
carries the ISO-8601 `expires_at` value `2024-01-05T06:00:00.000Z`; read
at `2024-01-05 07:00:00` UTC — one hour after the expiry instant — the SQL
comparison `expires_at > datetime('now')` compares the two different text
formats byte-wise, `'T' > ' '` makes it true, and `getCachedData` returns
the stale row instead of treating it as a cache miss. -/
theorem expired_same_day_cache_still_hits :
    timeLt (addTTL ⟨2024, 1, 5, 0, 0, 0, 0⟩) ⟨2024, 1, 5, 7, 0, 0, 0⟩ ∧
    isoOfTime (addTTL ⟨2024, 1, 5, 0, 0, 0, 0⟩) = "2024-01-05T06:00:00.000Z" ∧
    sqliteOfTime ⟨2024, 1, 5, 7, 0, 0, 0⟩ = "2024-01-05 07:00:00" ∧
    getCachedData
        (setCachedData false [] (cacheKey ("AP001") ("2024-01")) sampleBundle
          ⟨2024, 1, 5, 0, 0, 0, 0⟩)
        (sqliteOfTime ⟨2024, 1, 5, 7, 0, 0, 0⟩) (cacheKey ("AP001") ("2024-01")) =
      some sampleBundle :=
  ⟨by decide, by decide, by decide, by decide⟩

/-- C1 (amended): when the cache read and the cache write both succeed,
`fetchDistrictData` always returns a complete bundle — in particular, on a
cache miss with the upstream fetch failing or matching no row, it returns
the synthetic bundle; but a failing cache read or cache write is not
degraded to "proceed without caching": the outer catch rethrows
`Error('Failed to fetch district data')` (see the counterexample). -/
theorem fetch_total_when_persistence_ok (env : FetchEnv) (st : CacheState)
    (districtCode monthYear : String) (now : Time)
    (hr : env.cacheReadFails = false) (hw : env.cacheWriteFails = false) :
    ∃ b : Bundle,
      (fetchDistrictData env st districtCode monthYear now).result = .ok b ∧
      (getCachedData st (sqliteOfTime now) (cacheKey districtCode monthYear) = none →
        realDataOf env districtCode monthYear (isoOfTime now) = none →
        b = generateMockData env.sinFn districtCode monthYear (isoOfTime now)) := by
  unfold fetchDistrictData
  rw [hr, hw]
  simp only [Bool.false_eq_true, if_false, Bool.false_and]
  cases getCachedData st (sqliteOfTime now) (cacheKey districtCode monthYear) with
  | some cachedData =>
    exact ⟨cachedData, rfl, fun hnone => absurd hnone (by simp)⟩
  | none =>
    refine ⟨_, rfl, fun _ hreal => ?_⟩
    rw [hreal]
    rfl

/-- C1 counterexample: with an empty cache, a failing upstream call, and a
cache write that rejects with a persistence error, `fetchDistrictData`
does not return a bundle — it throws `Error('Failed to fetch district
data')` to the caller, contradicting the claim that a cache-write failure
degrades to proceeding without caching. -/
theorem fetch_raises_on_cache_write_failure :
    (fetchDistrictData envBad [] ("AP001") ("2024-03") ⟨2024, 3, 15, 12, 0, 0, 0⟩).result =
      .error ("Failed to fetch district data") := rfl

/-- Witness for C1: the amended totality theorem applied at a concrete
environment with healthy persistence and a failing upstream. -/
theorem fetch_total_when_persistence_ok_witness :
    ∃ b : Bundle,
      (fetchDistrictData envGood [] ("AP001") ("2024-03") ⟨2024, 3, 15, 12, 0, 0, 0⟩).result =
        .ok b ∧
      (getCachedData [] (sqliteOfTime ⟨2024, 3, 15, 12, 0, 0, 0⟩)
          (cacheKey ("AP001") ("2024-03")) = none →
        realDataOf envGood ("AP001") ("2024-03") (isoOfTime ⟨2024, 3, 15, 12, 0, 0, 0⟩) = none →
        b = generateMockData envGood.sinFn ("AP001") ("2024-03")
          (isoOfTime ⟨2024, 3, 15, 12, 0, 0, 0⟩)) :=
  fetch_total_when_persistence_ok envGood [] ("AP001") ("2024-03")
    ⟨2024, 3, 15, 12, 0, 0, 0⟩ rfl rfl

/-- C4: if `fetchDistrictData` is called twice for the same
`(entity_code, period)` — the first call missing the cache and writing it
successfully in a writable deployment, the second call happening before
the first call's expiry instant `t1 + 6h` — then the second call performs
no upstream attempt and returns a bundle identical to the first call's
result, whatever the second call's upstream would have produced. -/
theorem fetch_cached_within_ttl (env1 env2 : FetchEnv) (st0 : CacheState)
    (districtCode monthYear : String) (t1 t2 : Time)
    (hv2 : ValidTime t2) (hve : ValidTime (addTTL t1))
    (hwin : timeLt t2 (addTTL t1))
    (hro : env1.readOnly = false)
    (hr1 : env1.cacheReadFails = false) (hw1 : env1.cacheWriteFails = false)
    (hr2 : env2.cacheReadFails = false)
    (hmiss : getCachedData st0 (sqliteOfTime t1) (cacheKey districtCode monthYear) = none) :
    (fetchDistrictData env2 (fetchDistrictData env1 st0 districtCode monthYear t1).state
        districtCode monthYear t2).usedUpstream = false ∧
    (fetchDistrictData env2 (fetchDistrictData env1 st0 districtCode monthYear t1).state
        districtCode monthYear t2).result =
      (fetchDistrictData env1 st0 districtCode monthYear t1).result := by
  set dataV := (realDataOf env1 districtCode monthYear (isoOfTime t1)).getD
    (generateMockData env1.sinFn districtCode monthYear (isoOfTime t1)) with hdv
  have h1 : fetchDistrictData env1 st0 districtCode monthYear t1 =
      ⟨.ok dataV, true,
        ⟨cacheKey districtCode monthYear, dataV, isoOfTime (addTTL t1)⟩ ::
          st0.filter (fun r => !(r.key == cacheKey districtCode monthYear))⟩ := by
    unfold fetchDistrictData setCachedData
    rw [hr1, hw1, hro, hmiss]
    simp
  rw [h1]
  have hcmp : lexLt (sqliteOfTime t2).data (isoOfTime (addTTL t1)).data = true :=
    sql_lt_iso t2 (addTTL t1) hv2 hve hwin
  have hhit : getCachedData
      (⟨cacheKey districtCode monthYear, dataV, isoOfTime (addTTL t1)⟩ ::
        st0.filter (fun r => !(r.key == cacheKey districtCode monthYear)))
      (sqliteOfTime t2) (cacheKey districtCode monthYear) = some dataV := by
    unfold getCachedData
    rw [List.find?_cons_of_pos]
    · rfl
    · simp [hcmp]
  unfold fetchDistrictData
  rw [hr2]
  simp only [Bool.false_eq_true, if_false]
  rw [hhit]
  exact ⟨rfl, rfl⟩

/-- Witness for C4: a first call at noon and a second call three hours
later, inside the 6-hour TTL window, on an initially empty cache. -/
theorem fetch_cached_within_ttl_witness :
    timeLt ⟨2024, 3, 15, 15, 0, 0, 0⟩ (addTTL ⟨2024, 3, 15, 12, 0, 0, 0⟩) ∧
    ((fetchDistrictData envGood
        (fetchDistrictData envGood [] ("AP001") ("2024-03")
          ⟨2024, 3, 15, 12, 0, 0, 0⟩).state
        ("AP001") ("2024-03") ⟨2024, 3, 15, 15, 0, 0, 0⟩).usedUpstream = false ∧
      (fetchDistrictData envGood
          (fetchDistrictData envGood [] ("AP001") ("2024-03")
            ⟨2024, 3, 15, 12, 0, 0, 0⟩).state
          ("AP001") ("2024-03") ⟨2024, 3, 15, 15, 0, 0, 0⟩).result =
        (fetchDistrictData envGood [] ("AP001") ("2024-03")
          ⟨2024, 3, 15, 12, 0, 0, 0⟩).result) :=
  ⟨by decide,
    fetch_cached_within_ttl envGood envGood [] ("AP001") ("2024-03")
      ⟨2024, 3, 15, 12, 0, 0, 0⟩ ⟨2024, 3, 15, 15, 0, 0, 0⟩
      (by decide) (by decide) (by decide) rfl rfl rfl rfl rfl⟩

/-- C7: for every entity code and month count, `getDistrictHistory`
returns exactly `months` entries whose periods are in strictly ascending
chronological (equivalently, byte-wise string) order, and any month whose
fetch fails is represented by the synthetic mock entry for that month
instead of aborting the history. -/
theorem history_complete_chronological
    (fetchFn : String → Except String Bundle) (sinFn : ℚ → ℚ)
    (districtCode nowIso : String) (months : ℕ) (now : YM)
    (hlo : months ≤ monthIdx now + 1) (hhi : monthIdx now ≤ 119999) :
    (getDistrictHistory fetchFn sinFn districtCode months now nowIso).length = months ∧
    ((getDistrictHistory fetchFn sinFn districtCode months now nowIso).map
        (fun e => e.month_year)).Pairwise (fun a b => lexLt a.data b.data = true) ∧
    (∀ i, i < months → isOkB (fetchFn (formatYM (subMonths now i))) = false →
      (getDistrictHistory fetchFn sinFn districtCode months now nowIso)[months - 1 - i]? =
        some (mockHistEntry sinFn districtCode (formatYM (subMonths now i)) nowIso)) := by
  set f := fun i => match fetchFn (formatYM (subMonths now i)) with
    | .ok data => histEntryOfBundle (formatYM (subMonths now i)) data
    | .error _ => mockHistEntry sinFn districtCode (formatYM (subMonths now i)) nowIso with hf
  have hdef : getDistrictHistory fetchFn sinFn districtCode months now nowIso =
      ((List.range months).map f).reverse := rfl
  have hmy : ∀ i, (f i).month_year = formatYM (subMonths now i) := by
    intro i
    simp only [hf]
    cases fetchFn (formatYM (subMonths now i)) <;> rfl
  refine ⟨by rw [hdef]; simp, ?_, ?_⟩
  · rw [hdef, List.map_reverse, List.map_map]
    refine List.pairwise_reverse.mpr (List.pairwise_map.mpr ?_)
    refine List.Pairwise.imp_of_mem ?_ (List.pairwise_lt_range months)
    intro a b ha hb hab
    have hbm : b < months := List.mem_range.mp hb
    show lexLt ((f b).month_year).data ((f a).month_year).data = true
    rw [hmy a, hmy b]
    unfold subMonths
    exact formatYM_lt (monthIdx now - b) (monthIdx now - a) (by omega) (by omega)
  · intro i hi hfail
    rw [hdef]
    have hlen : ((List.range months).map f).length = months := by simp
    rw [List.getElem?_reverse (by rw [hlen]; omega), hlen,
      show months - 1 - (months - 1 - i) = i by omega,
      List.getElem?_map, List.getElem?_range hi, Option.map_some']
    cases hcase : fetchFn (formatYM (subMonths now i)) with
    | ok data =>
      rw [hcase] at hfail
      simp [isOkB] at hfail
    | error e =>
      simp only [hf, hcase]

/-- Witness for C7: a 12-month history ending October 2025 with every
per-month fetch failing. -/
theorem history_complete_chronological_witness :
    12 ≤ monthIdx ⟨2025, 10⟩ + 1 ∧
    ((getDistrictHistory (fun _ => .error ("x")) (fun _ => 0) ("AP001") 12 ⟨2025, 10⟩
        ("x")).length = 12 ∧
     ((getDistrictHistory (fun _ => .error ("x")) (fun _ => 0) ("AP001") 12 ⟨2025, 10⟩
         ("x")).map (fun e => e.month_year)).Pairwise
        (fun a b => lexLt a.data b.data = true) ∧
     (∀ i, i < 12 →
        isOkB ((fun _ => .error ("x")) (formatYM (subMonths ⟨2025, 10⟩ i))) = false →
        (getDistrictHistory (fun _ => .error ("x")) (fun _ => 0) ("AP001") 12 ⟨2025, 10⟩
          ("x"))[12 - 1 - i]? =
          some (mockHistEntry (fun _ => 0) ("AP001") (formatYM (subMonths ⟨2025, 10⟩ i))
            ("x")))) :=
  ⟨by decide,
    history_complete_chronological (fun _ => .error ("x")) (fun _ => 0) ("AP001") ("x") 12
      ⟨2025, 10⟩ (by decide) (by decide)⟩
